import Mathlib

/-!
Verification of the core-cli transfer pipeline against its specification.

The definitions below are a shallow embedding of the repository's
downloader (`bin/actions/downloader.js`, with its later revision that adds
`_stripISOString` and the `self`-bound stream error handler) and of the
uploader's contract.  The uploader implementation file itself is not part
of the source tree (only its unit tests are), so the uploader-side
operations are modelled from the specification, as marked in their doc
comments.  Filesystem state is abstracted as boolean observations
(`existsSync`, `isFile`, `isDirectory`); paths are strings over the POSIX
separator.
-/

namespace CoreCli

/-- Remote file metadata record as returned by the bridge client:
`{filename, mimetype, size, id}`. -/
structure FileMeta where
  filename : String
  mimetype : String
  size : Nat
  id : String
deriving DecidableEq, Repr

/-- Abstract filesystem observations used by the downloader: existence,
regular-file and directory checks (`storj.utils.existsSync`,
`fs.statSync(..).isFile()`, `fs.statSync(..).isDirectory()`). -/
structure FS where
  existsSync : String → Bool
  isFile : String → Bool
  isDirectory : String → Bool

/-- Split a character list at a separator character, like JS
`String.prototype.split` with a one-character separator: the empty string
splits to `[""]`. -/
def splitSepAux (sep : Char) : List Char → List Char → List String
  | [], acc => [String.mk acc.reverse]
  | c :: rest, acc =>
    if c = sep then String.mk acc.reverse :: splitSepAux sep rest []
    else splitSepAux sep rest (c :: acc)

/-- Split a string on a separator character (JS `s.split(sep)`). -/
def splitSep (sep : Char) (s : String) : List String :=
  splitSepAux sep s.data []

/-- JS `s.split(',')`, used for the downloader's exclusion list. -/
def splitComma (s : String) : List String :=
  splitSep ',' s

/-- Whether a path's last character is the POSIX path separator
(JS `filepath.slice(-1) === path.sep`). -/
def endsWithSep (s : String) : Bool :=
  s.data.getLast? = some '/'

/-- Node `path.posix.dirname`: strip trailing separators, then drop the
last path component; `"."` when there is no directory part, `"/"` for the
root, `"//"` for the double-root special case. -/
def dirname (p : String) : String :=
  match p.data with
  | [] => "."
  | c0 :: rest =>
    let hasRoot := c0 = '/'
    let scanned := (rest.reverse.dropWhile (· = '/')).dropWhile (· ≠ '/')
    if scanned.isEmpty then (if hasRoot then "/" else ".")
    else if hasRoot ∧ scanned.length = 1 then "//"
    else String.mk ((c0 :: rest).take scanned.length)

/-- Resolve `.` and `..` path segments, as Node's path normalization does
(`..` at the root of an absolute path is dropped). -/
def resolveDots (isAbs : Bool) (segs : List String) : List String :=
  segs.foldl
    (fun acc seg =>
      if seg = "." then acc
      else if seg = ".." then
        match acc.getLast? with
        | some last => if last = ".." then acc ++ [seg] else acc.dropLast
        | none => if isAbs then acc else [seg]
      else acc ++ [seg])
    []

/-- Node `path.posix.join` on two arguments: concatenate with a separator
and normalize (collapse duplicate separators, resolve dot segments,
preserve a leading and a trailing separator). -/
def pathJoin (a b : String) : String :=
  let joined := if a.isEmpty then b else if b.isEmpty then a else a ++ "/" ++ b
  if joined.isEmpty then "." else
  let isAbs := joined.data.head? = some '/'
  let hadTrail := joined.data.getLast? = some '/'
  let segs := resolveDots isAbs ((splitSep '/' joined).filter (· ≠ ""))
  let core := String.intercalate "/" segs
  if segs.isEmpty then (if isAbs then "/" else ".")
  else (if isAbs then "/" ++ core else core) ++ (if hadTrail then "/" else "")

/-- Downloader instance fields set by the constructor
(`bin/actions/downloader.js`). -/
structure Downloader where
  bucket : String
  fileid : String
  filepath : String
  exclude : String
  fileMeta : Option FileMeta
deriving Repr

/-- Constructor options (`options.bucket`, `options.fileid`,
`options.filepath`, `options.env.exclude`). -/
structure DownloaderOptions where
  bucket : String
  fileid : String
  filepath : String
  exclude : String

/-- `Downloader.prototype._validate`: refuse an existing regular file at
the destination, require the parent directory to exist, and when the path
ends in a separator require it to be an existing directory
(`fs.statSync` on a missing path itself throws `ENOENT`). -/
def downloaderValidate (fs : FS) (filepath : String) : Except String Unit :=
  if fs.existsSync filepath ∧ fs.isFile filepath then
    .error ("Refusing to overwrite file at " ++ filepath)
  else if !fs.existsSync (dirname filepath) then
    .error (dirname filepath ++ " is not an existing folder")
  else if endsWithSep filepath then
    if !fs.existsSync filepath then
      .error "ENOENT"
    else if !fs.isDirectory filepath then
      .error (filepath ++ "is not an existing folder")
    else .ok ()
  else .ok ()

/-- The `Downloader` constructor: it stores its options (the client and
keypass factories it also stores construct no network or key-ring
connection) and then calls `_validate`, which performs only filesystem
existence/stat reads; any assertion failure is thrown before `start` — and
hence before any network, key-ring, or filesystem-write operation — can
run. -/
def downloaderNew (fs : FS) (opts : DownloaderOptions) : Except String Downloader :=
  match downloaderValidate fs opts.filepath with
  | .error e => .error e
  | .ok _ =>
    .ok { bucket := opts.bucket, fileid := opts.fileid, filepath := opts.filepath,
          exclude := opts.exclude, fileMeta := none }

/-- Whether a character is matched by the unescaped `.` of the regex in
`_stripISOString` (JS `.` matches everything except line terminators). -/
def regexAnyChar (c : Char) : Bool :=
  c ≠ '\n' ∧ c ≠ '\r' ∧ c ≠ ' ' ∧ c ≠ ' '

/-- Match the regex `^\(\d{4}-\d{2}-\d{2}T\d{2};\d{2};\d{2}.\d{3}Z\)-` of
`Downloader.prototype._stripISOString` against the head of a character
list, returning the remainder after the fixed-width (27 character) match
when it succeeds. -/
def isoTagRest : List Char → Option (List Char)
  | c0 :: c1 :: c2 :: c3 :: c4 :: c5 :: c6 :: c7 :: c8 :: c9 :: c10 :: c11 :: c12 ::
      c13 :: c14 :: c15 :: c16 :: c17 :: c18 :: c19 :: c20 :: c21 :: c22 :: c23 ::
      c24 :: c25 :: c26 :: rest =>
    if c0 = '(' ∧ c1.isDigit ∧ c2.isDigit ∧ c3.isDigit ∧ c4.isDigit ∧ c5 = '-' ∧
        c6.isDigit ∧ c7.isDigit ∧ c8 = '-' ∧ c9.isDigit ∧ c10.isDigit ∧ c11 = 'T' ∧
        c12.isDigit ∧ c13.isDigit ∧ c14 = ';' ∧ c15.isDigit ∧ c16.isDigit ∧ c17 = ';' ∧
        c18.isDigit ∧ c19.isDigit ∧ regexAnyChar c20 ∧ c21.isDigit ∧ c22.isDigit ∧
        c23.isDigit ∧ c24 = 'Z' ∧ c25 = ')' ∧ c26 = '-' then
      some rest
    else none
  | _ => none

/-- `Downloader.prototype._stripISOString`: remove the anchored collision
prefix when present (the regex is anchored, so at most the leading
occurrence is replaced), otherwise return the name unchanged. -/
def stripISOString (fileName : String) : String :=
  match isoTagRest fileName.data with
  | some rest => String.mk rest
  | none => fileName

/-- `Downloader.prototype._getInfo` success branch: the retrieved metadata
is stored with `fileMeta.filename` replaced by its ISO-stripped form; the
identifier (and every other field) is left unchanged, and the later
`createFileStream` request continues to use `this.fileid`. -/
def getInfoUpdate (file : FileMeta) : FileMeta :=
  { file with filename := stripISOString file.filename }

/-- Callback invocation observed at a pipeline step: `none` is
`callback(null)`, `some msg` is `callback(new Error(msg))`. -/
abbrev CbCall := Option String

/-- Outcome of the older `Downloader.prototype._getInfo` revision
(`bin/actions/downloader.js` lines 52-73), which lists the bucket and
scans for the file id.  The input is the client's response to
`listFilesInBucket`; the output on a normal path is the list of
continuation invocations performed, paired with the `fileMeta` the scan
stored; `Except.error ()` marks the `TypeError` raised by `files.forEach`
when `files` is absent.  The `if (err)` branch invokes the continuation
but does not return, so execution falls through to the scan. -/
def binGetInfo (fileid : String) (err : Option String)
    (files : Option (List FileMeta)) :
    Except Unit (List CbCall × Option FileMeta) :=
  let first : List CbCall := match err with
    | some e => [some e]
    | none => []
  match files with
  | none => Except.error ()
  | some fs =>
    let meta := fs.foldl (fun acc f => if fileid = f.id then some f else acc) none
    Except.ok (first ++ [none], meta)

/-- Result of `Downloader.prototype._determineSaveLocation`: the callback
invocations performed, the destination field as set, and the error-level
log lines emitted. -/
structure SaveLocResult where
  callbacks : List CbCall
  destination : Option String
  errorLogs : List String
deriving DecidableEq, Repr

/-- `Downloader.prototype._determineSaveLocation`: reject a missing
`fileMeta`; when `filepath` exists and is a directory, join it with the
remote-reported filename and refuse to overwrite an existing composed
path — but that refusal only logs at error level and returns, invoking no
callback; when `filepath` is missing and separator-terminated the step
errors; otherwise the destination is `filepath` itself and the step
succeeds.  (The source also tests `this.file !== null`, which is always
true since `this.file` is undefined.) -/
def determineSaveLocation (fs : FS) (bucket fileid filepath : String)
    (fileMeta : Option FileMeta) : SaveLocResult :=
  match fileMeta with
  | none =>
    ⟨[some ("file " ++ fileid ++ " does not exist in bucket " ++ bucket)], none, []⟩
  | some meta =>
    if fs.existsSync filepath then
      if fs.isDirectory filepath then
        let fullpath := pathJoin filepath meta.filename
        if fs.existsSync fullpath then
          ⟨[], none, ["Refusing to overwrite file at " ++ fullpath]⟩
        else ⟨[none], some fullpath, []⟩
      else ⟨[none], some filepath, []⟩
    else if endsWithSep filepath then
      ⟨[some (filepath ++ " is not an existing folder")], none, []⟩
    else ⟨[none], some filepath, []⟩

/-- Farmer contact carried by a shard-transfer error pointer
(`err.pointer.farmer.nodeID`). -/
structure Farmer where
  nodeID : String
deriving DecidableEq, Repr

/-- Pointer to the failed shard source, when the stream error carries
one. -/
structure ErrPointer where
  farmer : Farmer
deriving DecidableEq, Repr

/-- Error emitted by the source stream in `_handleFileStream`. -/
structure StreamError where
  message : String
  pointer : Option ErrPointer
deriving DecidableEq, Repr

/-- Observable action of the stream error handler in
`Downloader.prototype._handleFileStream`. -/
inductive HandlerEvent where
  | logWarn (msg : String)
  | unlink (path : String)
  | callbackError (msg : String)
  | logInfo (msg : String)
  | restart (selfExclude : String)
deriving DecidableEq, Repr

/-- Whether a handler event is an invocation of the waterfall callback. -/
def HandlerEvent.isCallback : HandlerEvent → Bool
  | .callbackError _ => true
  | _ => false

/-- The `stream.on('error', ...)` handler of
`Downloader.prototype._handleFileStream` (the revision that binds `self`):
warn, unlink `self.destination`; if the unlink fails, invoke the callback
with a cleanup error; otherwise, with no `err.pointer` simply return; with
a pointer, log, push the failed farmer's node id onto a local copy of the
split exclusion list (the copy is discarded — `self.exclude` is never
reassigned) and call `self.start(self.finalCallback)`, which re-reads the
unchanged `self.exclude`. -/
def onStreamError (selfExclude selfDestination : String) (err : StreamError)
    (unlinkFailed : Bool) : List HandlerEvent :=
  [.logWarn ("Failed to download shard, reason: " ++ err.message),
   .unlink selfDestination] ++
  (if unlinkFailed then [.callbackError "Failed to unlink partial file."]
   else
     match err.pointer with
     | none => []
     | some ptr =>
       let excludeLocal := splitComma selfExclude ++ [ptr.farmer.nodeID]
       let _ := excludeLocal
       [.logInfo "Retrying download from other mirrors...", .restart selfExclude])

/-- Exclusion list that `Downloader.prototype._createFileStream` passes to
the client: `{exclude: this.exclude.split(',')}`. -/
def createFileStreamExclude (selfExclude : String) : List String :=
  splitComma selfExclude

/-- Clock reading used for the collision rename, with the calendar and
sub-second fields that an ISO-8601 timestamp renders. -/
structure Timestamp where
  year : Nat
  month : Nat
  day : Nat
  hour : Nat
  minute : Nat
  second : Nat
  ms : Nat
deriving DecidableEq, Repr

/-- Two-digit zero-padded decimal rendering of a field. -/
def pad2 (n : Nat) : List Char :=
  [Nat.digitChar (n / 10 % 10), Nat.digitChar (n % 10)]

/-- Three-digit zero-padded decimal rendering of the milliseconds. -/
def pad3 (n : Nat) : List Char :=
  [Nat.digitChar (n / 100 % 10), Nat.digitChar (n / 10 % 10), Nat.digitChar (n % 10)]

/-- Four-digit zero-padded decimal rendering of the year. -/
def pad4 (n : Nat) : List Char :=
  [Nat.digitChar (n / 1000 % 10), Nat.digitChar (n / 100 % 10),
   Nat.digitChar (n / 10 % 10), Nat.digitChar (n % 10)]

/-- ISO-8601 timestamp with each `:` replaced by `;`
(`new Date().toISOString().replace(/:/g, ';')`). -/
def isoSemiColons (t : Timestamp) : List Char :=
  pad4 t.year ++ '-' :: (pad2 t.month ++ '-' :: (pad2 t.day ++ 'T' ::
    (pad2 t.hour ++ ';' :: (pad2 t.minute ++ ';' ::
      (pad2 t.second ++ '.' :: (pad3 t.ms ++ ['Z']))))))

/-- Modelled from the spec: the upload-side collision rename performed by
`_checkFileExistence` of `bin/actions/uploader.js`, which is absent from
the source tree.  Per §4.2 the effective name is the original filename
prefixed with the parenthesized semicolon-for-colon ISO-8601 timestamp
followed by a hyphen, e.g. `(2016-05-01T12;00;00.000Z)-report.pdf`. -/
def collisionName (t : Timestamp) (name : String) : String :=
  String.mk ('(' :: (isoSemiColons t ++ ')' :: '-' :: name.data))

/-- Outcome of the upload-side name-collision check: the effective upload
name, whether a warning was logged, and the error handed to the job's
callback (always absent — the event is non-fatal). -/
structure CollisionCheckResult where
  effectiveName : String
  warned : Bool
  callbackErr : Option String
deriving DecidableEq, Repr

/-- Modelled from the spec: `_checkFileExistence` of
`bin/actions/uploader.js` (absent from the source tree).  The remote
lookup by the identifier derived from (bucket, filename) either finds an
existing file — then the name is collision-renamed, a warning is logged
and the callback is invoked without error — or finds none and the name is
kept. -/
def checkFileExistence (existsRemotely : Bool) (now : Timestamp)
    (filename : String) : CollisionCheckResult :=
  if existsRemotely then
    ⟨collisionName now filename, true, none⟩
  else
    ⟨filename, false, none⟩

/-- Authorization token returned by `client.createToken`. -/
structure PushToken where
  value : String
deriving DecidableEq, Repr

/-- Request error surfaced by `client.createToken`. -/
structure TokenErr where
  message : String
deriving DecidableEq, Repr

/-- Modelled from the spec: the retry loop of `_createToken` of
`bin/actions/uploader.js` (absent from the source tree).  `respond i` is
the network client's answer to attempt `i`; `fuel` is the number of
retries still allowed after the current attempt.  Returns the total
number of attempts performed and the final outcome (the stored token, or
the last underlying error once every attempt failed). -/
def createTokenGo (respond : Nat → Except TokenErr PushToken) (idx : Nat) :
    Nat → Nat × Except TokenErr PushToken
  | 0 => (idx + 1, respond idx)
  | fuel + 1 =>
    match respond idx with
    | .ok t => (idx + 1, .ok t)
    | .error _ => createTokenGo respond (idx + 1) fuel

/-- Modelled from the spec: `_createToken` acquires a push token with up
to 7 attempts total — the original attempt plus 6 retries (§4.3). -/
def createToken (respond : Nat → Except TokenErr PushToken) :
    Nat × Except TokenErr PushToken :=
  createTokenGo respond 0 6

/-- Modelled from the spec: the run-level counters of the upload
`PipelineRun` (`bin/actions/uploader.js` is absent from the source tree):
the uploaded-file count, the total file count, and how many times the
run's final callback has fired. -/
structure RunState where
  uploadedCount : Nat
  fileCount : Nat
  callbackFired : Nat
deriving DecidableEq, Repr

/-- Modelled from the spec: initial `PipelineRun` state —
`uploadedCount` starts at 0 and the final callback has not fired. -/
def RunState.init (fileCount : Nat) : RunState :=
  ⟨0, fileCount, 0⟩

/-- Modelled from the spec: the successful-commit step of
`_storeFileInBucket` (`bin/actions/uploader.js` is absent from the source
tree).  A successful commit increments `uploadedCount` by exactly one and
fires the run's final callback exactly when the count reaches
`fileCount`. -/
def commitFile (s : RunState) : RunState :=
  let n := s.uploadedCount + 1
  { s with
    uploadedCount := n,
    callbackFired := s.callbackFired + (if n = s.fileCount then 1 else 0) }

/-- Modelled from the spec: construction-time `_validate` of
`bin/actions/uploader.js` (absent from the source tree).  File
concurrency below 1 and a zero eligible-file count are fatal validation
errors thrown before any network call (the constructor only stores
options, gathers the file list from disk and validates); concurrency
above 6 merely logs a warning.  Returns the warnings on success. -/
def uploaderValidate (fileConcurrency fileCount : Nat) :
    Except String (List String) :=
  if fileConcurrency < 1 then
    .error "File Concurrency cannot be less than 1"
  else
    let warns :=
      if fileConcurrency > 6 then
        ["A file concurrency of " ++ toString fileConcurrency ++
          " may result in issues!"]
      else []
    if fileCount = 0 then
      .error "0 files specified to be uploaded."
    else .ok warns

/-! Helper lemmas. -/

/-- Rebuilding a string from its characters gives the same string. -/
theorem string_mk_data (s : String) : String.mk s.data = s := by
  cases s
  rfl

/-- A zero-padded decimal digit is a digit character. -/
theorem isDigit_digitChar_mod (n : Nat) : (Nat.digitChar (n % 10)).isDigit = true := by
  have h : n % 10 < 10 := Nat.mod_lt _ (by decide)
  generalize hk : n % 10 = k at h
  interval_cases k <;> decide

/-- The regex dot matches the decimal point of the rendered timestamp. -/
theorem regexAnyChar_dot : regexAnyChar '.' = true := by decide

/-- Validation fails whenever the destination is an existing regular file
or its parent directory does not exist. -/
theorem downloaderValidate_error (fs : FS) (p : String)
    (h : (fs.existsSync p ∧ fs.isFile p) ∨ fs.existsSync (dirname p) = false) :
    ∃ e, downloaderValidate fs p = .error e := by
  by_cases h1 : fs.existsSync p ∧ fs.isFile p
  · exact ⟨"Refusing to overwrite file at " ++ p, by simp [downloaderValidate, h1]⟩
  · rcases h with h2 | h3
    · exact absurd h2 h1
    · exact ⟨dirname p ++ " is not an existing folder",
        by simp [downloaderValidate, h1, h3]⟩

/-- The rendered collision tag matches the strip regex exactly, leaving
the original characters. -/
theorem isoTagRest_collision (t : Timestamp) (cs : List Char) :
    isoTagRest ('(' :: (isoSemiColons t ++ ')' :: '-' :: cs)) = some cs := by
  simp [isoSemiColons, pad4, pad2, pad3, isoTagRest, isDigit_digitChar_mod,
    regexAnyChar_dot]

/-- The token retry loop stops at the first successful attempt and stores
its token, counting every attempt made so far. -/
theorem createTokenGo_reaches_ok (respond : Nat → Except TokenErr PushToken)
    (t : PushToken) :
    ∀ fuel idx i : Nat, idx ≤ i → i ≤ idx + fuel →
      (∀ j, idx ≤ j → j < i → (respond j).isOk = false) →
      respond i = .ok t → createTokenGo respond idx fuel = (i + 1, .ok t) := by
  intro fuel
  induction fuel with
  | zero =>
    intro idx i h1 h2 h3 h4
    have hi : i = idx := by omega
    subst hi
    simp [createTokenGo, h4]
  | succ n ih =>
    intro idx i h1 h2 h3 h4
    rcases Nat.eq_or_lt_of_le h1 with heq | hlt
    · subst heq
      simp [createTokenGo, h4]
    · have herr : (respond idx).isOk = false := h3 idx Nat.le.refl hlt
      cases hr : respond idx with
      | ok v => rw [hr] at herr; simp [Except.isOk, Except.toBool] at herr
      | error er =>
        rw [createTokenGo, hr]
        exact ih (idx + 1) i hlt (by omega) (fun j hj1 hj2 => h3 j (by omega) hj2) h4

/-- Closed form of the upload run's counters after `k` successful commits
out of `N` files. -/
theorem commitFile_iterate (N k : Nat) (hk : k ≤ N) :
    commitFile^[k] (RunState.init N) =
      ⟨k, N, if k = N ∧ 1 ≤ N then 1 else 0⟩ := by
  induction k with
  | zero =>
    simp only [Function.iterate_zero, id_eq, RunState.init]
    refine congrArg (RunState.mk 0 N) ?_
    split <;> omega
  | succ k ih =>
    rw [Function.iterate_succ_apply', ih (by omega)]
    have hk1 : ¬(k = N ∧ 1 ≤ N) := by omega
    simp only [commitFile, hk1, if_false]
    refine congrArg (RunState.mk (k + 1) N) ?_
    split <;> split <;> omega

/-! Claim theorems. -/

/-- C9: Downloader construction validates the destination eagerly — for a
destination that is an existing regular file, or one whose parent
directory does not exist (no trailing separator required), the
constructor's `_validate` throws, so construction fails before `start`
can perform any network, key-ring, or filesystem-write operation. -/
theorem downloader_constructor_eager_validation (fs : FS)
    (opts : DownloaderOptions)
    (h : (fs.existsSync opts.filepath ∧ fs.isFile opts.filepath) ∨
         fs.existsSync (dirname opts.filepath) = false) :
    ∃ e, downloaderNew fs opts = .error e := by
  obtain ⟨e, he⟩ := downloaderValidate_error fs opts.filepath h
  exact ⟨e, by simp [downloaderNew, he]⟩

/-- Witness for C9: a destination that is an existing regular file (no
trailing separator, parent irrelevant) makes construction fail. -/
theorem downloader_constructor_eager_validation_witness :
    (((FS.mk (fun p => p == "/test/filepath/testfile.extension")
        (fun p => p == "/test/filepath/testfile.extension")
        (fun _ => false)).existsSync "/test/filepath/testfile.extension" ∧
      (FS.mk (fun p => p == "/test/filepath/testfile.extension")
        (fun p => p == "/test/filepath/testfile.extension")
        (fun _ => false)).isFile "/test/filepath/testfile.extension") ∨
      (FS.mk (fun p => p == "/test/filepath/testfile.extension")
        (fun p => p == "/test/filepath/testfile.extension")
        (fun _ => false)).existsSync
          (dirname "/test/filepath/testfile.extension") = false) ∧
    ∃ e, downloaderNew
      (FS.mk (fun p => p == "/test/filepath/testfile.extension")
        (fun p => p == "/test/filepath/testfile.extension")
        (fun _ => false))
      ⟨"test bucket id", "test file id", "/test/filepath/testfile.extension", ""⟩ =
        .error e :=
  ⟨Or.inl (by decide),
   downloader_constructor_eager_validation _ _ (Or.inl (by decide))⟩

/-- C10: in the older `_getInfo` the error branch is not terminal — on a
failed listing that still hands back a file array, the continuation is
invoked with the error, execution falls through to the scan, and the
continuation is invoked a second time, so it is not invoked exactly once
on the error path. -/
theorem binGetInfo_error_continuation_twice (fid e : String)
    (files : List FileMeta) :
    ∃ meta cbs, binGetInfo fid (some e) (some files) = .ok (cbs, meta) ∧
      cbs.head? = some (some e) ∧ cbs.length = 2 ∧ cbs.length ≠ 1 := by
  refine ⟨files.foldl (fun acc (f : FileMeta) => if fid = f.id then some f else acc) none,
    [some e, none], rfl, rfl, rfl, ?_⟩
  simp

/-- C1 (failing input): a shard stream error carrying the pointer of
farmer `"e"` with exclusion set `"a,b,c,d"` makes the handler unlink the
partial file and restart, but `self.exclude` is never reassigned — the
pushed node id lives only in a discarded local — so the restarted
download's `createFileStream` exclusion list still lacks `"e"`, contrary
to the spec and to the unit test that expects `"a,b,c,d,e"`. -/
theorem retryDiscardsFailedPeer :
    onStreamError "a,b,c,d" "/test/destination"
        ⟨"test readable error message", some ⟨⟨"e"⟩⟩⟩ false =
      [.logWarn "Failed to download shard, reason: test readable error message",
       .unlink "/test/destination",
       .logInfo "Retrying download from other mirrors...",
       .restart "a,b,c,d"] ∧
    createFileStreamExclude "a,b,c,d" = ["a", "b", "c", "d"] ∧
    "e" ∉ createFileStreamExclude "a,b,c,d" := by
  exact ⟨by decide, by decide, by decide⟩

/-- C2 (failing input): a shard stream error without a pointer makes the
handler unlink the partial file and then simply return — no event invokes
the waterfall callback, so the original error is never propagated to the
download's final callback, contrary to the spec and to the unit test that
expects the callback to receive an error. -/
theorem terminalStreamErrorSwallowed :
    onStreamError "a,b,c,d" "/test/destination"
        ⟨"test readable error message", none⟩ false =
      [.logWarn "Failed to download shard, reason: test readable error message",
       .unlink "/test/destination"] ∧
    (onStreamError "a,b,c,d" "/test/destination"
        ⟨"test readable error message", none⟩ false).all
      (fun ev => !ev.isCallback) = true := by
  exact ⟨by decide, by decide⟩

/-- C3 (failing input): when the destination is an existing directory the
write path is the directory joined with the remote filename, but when
that composed path already exists the refusal is only logged at error
level — no callback is invoked, so no overwrite-refused error reaches the
caller; when the composed path is absent the step succeeds with the
composed destination (the `/tmp/report.pdf` scenario). -/
theorem overwriteRefusalNotDelivered :
    determineSaveLocation
      ⟨fun p => p == "/test/file/path/" || p == "/test/file/path/testfilename.ext",
       fun _ => false, fun p => p == "/test/file/path/"⟩
      "test bucket id" "test file id" "/test/file/path/"
      (some ⟨"testfilename.ext", "text/plain", 10, "remoteid"⟩) =
      ⟨[], none, ["Refusing to overwrite file at /test/file/path/testfilename.ext"]⟩ ∧
    determineSaveLocation
      ⟨fun p => p == "/tmp/", fun _ => false, fun p => p == "/tmp/"⟩
      "B" "test file id" "/tmp/"
      (some ⟨"report.pdf", "application/pdf", 10, "remoteid"⟩) =
      ⟨[none], some "/tmp/report.pdf", []⟩ := by
  exact ⟨by decide, by decide⟩

/-- C4: push-token acquisition performs exactly 7 attempts (the original
plus 6 retries) under persistent failure and hands the job's callback the
last underlying error; on the first successful attempt it stops retrying
and stores the returned token. -/
theorem createToken_seven_attempts (e : Nat → TokenErr)
    (respond : Nat → Except TokenErr PushToken) (t : PushToken) (i : Nat)
    (hi : i < 7) (hfail : ∀ j, j < i → (respond j).isOk = false)
    (hok : respond i = .ok t) :
    createToken (fun j => .error (e j)) = (7, .error (e 6)) ∧
    createToken respond = (i + 1, .ok t) := by
  constructor
  · rfl
  · exact createTokenGo_reaches_ok respond t 6 0 i (Nat.zero_le i) (by omega)
      (fun j _ hj => hfail j hj) hok

/-- Witness for C4: two failures then a success stops after 3 attempts
with the token stored, while the all-failure column of the same theorem
shows 7 attempts ending in the last error. -/
theorem createToken_seven_attempts_witness :
    (2 : Nat) < 7 ∧
    (createToken (fun _ => .error ⟨"boom"⟩) = (7, .error ⟨"boom"⟩) ∧
     createToken (fun j => if j < 2 then .error ⟨"boom"⟩ else .ok ⟨"tok"⟩) =
       (3, .ok ⟨"tok"⟩)) :=
  ⟨by decide,
   createToken_seven_attempts (fun _ => ⟨"boom"⟩)
     (fun j => if j < 2 then .error ⟨"boom"⟩ else .ok ⟨"tok"⟩) ⟨"tok"⟩ 2
     (by decide) (fun j hj => by simp [hj, Except.isOk, Except.toBool]) (by rfl)⟩

/-- C5: when the collision check finds the derived identifier already in
the bucket, the effective upload name becomes the parenthesized
semicolon-for-colon ISO timestamp, a hyphen, then the original name — a
string the strip regex matches with exactly the original name left over —
and the event is a logged warning with the job's callback invoked without
error. -/
theorem collisionRename_on_existing_file (t : Timestamp) (f : String) :
    (checkFileExistence true t f).effectiveName = collisionName t f ∧
    isoTagRest (checkFileExistence true t f).effectiveName.data = some f.data ∧
    (checkFileExistence true t f).warned = true ∧
    (checkFileExistence true t f).callbackErr = none := by
  refine ⟨rfl, ?_, rfl, rfl⟩
  exact isoTagRest_collision t f.data

/-- C6: stripping the download-side ISO prefix from the upload-side
collision-renamed name recovers exactly the original filename, for every
filename and timestamp; and the `_getInfo` metadata update applies the
strip only to the reported filename, leaving the identifier used to
fetch the file unchanged. -/
theorem stripISO_inverts_collisionName (t : Timestamp) (f : String)
    (file : FileMeta) :
    stripISOString (collisionName t f) = f ∧
    (getInfoUpdate file).id = file.id ∧
    (getInfoUpdate file).filename = stripISOString file.filename := by
  refine ⟨?_, rfl, rfl⟩
  have h : isoTagRest (collisionName t f).data = some f.data :=
    isoTagRest_collision t f.data
  simp only [stripISOString, h]

/-- C7: the uploaded count starts at zero, each successful commit
increments it by exactly one, it never exceeds the file count, and the
run's final callback fires exactly once, exactly when the uploaded count
reaches the file count. -/
theorem uploadRun_counter_invariants (N k : Nat) (hN : 1 ≤ N) (hk : k ≤ N) :
    (∀ s : RunState, (commitFile s).uploadedCount = s.uploadedCount + 1) ∧
    (commitFile^[k] (RunState.init N)).uploadedCount = k ∧
    (commitFile^[k] (RunState.init N)).uploadedCount ≤ N ∧
    (commitFile^[k] (RunState.init N)).callbackFired =
      (if k = N then 1 else 0) := by
  rw [commitFile_iterate N k hk]
  refine ⟨fun s => rfl, rfl, hk, ?_⟩
  have : (k = N ∧ 1 ≤ N) ↔ k = N := by omega
  simp only [this]

/-- Witness for C7: a three-file run after three commits has count 3 and
has fired its final callback exactly once. -/
theorem uploadRun_counter_invariants_witness :
    ((1 : Nat) ≤ 3 ∧ (3 : Nat) ≤ 3) ∧
    ((∀ s : RunState, (commitFile s).uploadedCount = s.uploadedCount + 1) ∧
     (commitFile^[3] (RunState.init 3)).uploadedCount = 3 ∧
     (commitFile^[3] (RunState.init 3)).uploadedCount ≤ 3 ∧
     (commitFile^[3] (RunState.init 3)).callbackFired =
       (if 3 = 3 then 1 else 0)) :=
  ⟨by decide, uploadRun_counter_invariants 3 3 (by decide) (by decide)⟩

/-- C8: upload construction-time validation rejects file concurrency
below 1 with a thrown validation error (before any network call — the
model performs none), permits concurrency above 6 with only a logged
warning, and rejects a zero eligible-file count. -/
theorem uploaderValidate_concurrency_policy (fc n : Nat) :
    (fc < 1 → uploaderValidate fc n =
      .error "File Concurrency cannot be less than 1") ∧
    (6 < fc → 0 < n → uploaderValidate fc n =
      .ok ["A file concurrency of " ++ toString fc ++ " may result in issues!"]) ∧
    (n = 0 → 1 ≤ fc → uploaderValidate fc n =
      .error "0 files specified to be uploaded.") := by
  refine ⟨fun h => by simp [uploaderValidate, h], fun h6 hn => ?_, fun hn hfc => ?_⟩
  · have h1 : ¬fc < 1 := by omega
    have hn0 : n ≠ 0 := by omega
    simp [uploaderValidate, h1, h6, hn0]
  · have h1 : ¬fc < 1 := by omega
    simp [uploaderValidate, h1, hn]

/-- Witness for C8: concurrency 0 throws, concurrency 7 with files
succeeds with a warning, and zero files throws. -/
theorem uploaderValidate_concurrency_policy_witness :
    uploaderValidate 0 3 = .error "File Concurrency cannot be less than 1" ∧
    uploaderValidate 7 3 =
      .ok ["A file concurrency of " ++ toString 7 ++ " may result in issues!"] ∧
    uploaderValidate 3 0 = .error "0 files specified to be uploaded." :=
  ⟨(uploaderValidate_concurrency_policy 0 3).1 (by decide),
   (uploaderValidate_concurrency_policy 7 3).2.1 (by decide) (by decide),
   (uploaderValidate_concurrency_policy 3 0).2.2 rfl (by decide)⟩

end CoreCli
